import Mathlib

/-!
Verification of `src/proxy_layer/todoist-update-trmnl.py` (TRMNL/Todoist
hookup script).

Shallow embedding: the pure fragments of the Python source are translated
into Lean functions; the stateful OAuth authorization flow is modelled by
explicit state passing over the mutable fields of `TrmnlTodoistHookup`,
with the effectful collaborators (browser, HTTP server thread, the
token-exchange endpoint, the token file) represented by an environment
record and an event trace.  Line numbers in the doc comments refer to the
Python source file.
-/

namespace Todoist

/-! ## Byte-budget truncation (`truncate_data_to_limit`, lines 328-342) -/

/-- Python `len(s.encode(utf8))`: the number of UTF-8 bytes of a string. -/
def pyLenUtf8 (s : String) : Nat :=
  (s.data.map Char.utf8Size).sum

/-- Body of `json.dumps` applied to a list: the items rendered by
`dumpItem`, joined by the default item separator `", "`. -/
def pyJsonListBody (dumpItem : α → String) : List α → String
  | [] => ""
  | [x] => dumpItem x
  | x :: y :: xs => dumpItem x ++ ", " ++ pyJsonListBody dumpItem (y :: xs)

/-- Python `json.dumps(l)` for a list `l`, with each item rendered by
`dumpItem` (for the task dictionaries of this script the default
`ensure_ascii` rendering is ASCII, so `dumpItem` yields exactly the
serialized item text). -/
def pyJsonDumps (dumpItem : α → String) (l : List α) : String :=
  "[" ++ pyJsonListBody dumpItem l ++ "]"

/-- Line 337: `len(json.dumps(new_list).encode(utf8))`. -/
def serializedSize (dumpItem : α → String) (l : List α) : Nat :=
  pyLenUtf8 (pyJsonDumps dumpItem l)

/-- Loop of `truncate_data_to_limit` (lines 332-341): append the item,
re-serialize, and if the size now exceeds the limit pop the item just
appended and stop. -/
def truncate_go (dumpItem : α → String) (limit_bytes : Nat)
    (new_list : List α) : List α → List α
  | [] => new_list
  | item :: rest =>
    let appended := new_list ++ [item]
    if limit_bytes < serializedSize dumpItem appended then appended.dropLast
    else truncate_go dumpItem limit_bytes appended rest

/-- `TrmnlTodoistHookup.truncate_data_to_limit` (lines 328-342).  The
Python parameter `limit_bytes` defaults to 2048; the default is passed
explicitly here. -/
def truncate_data_to_limit (dumpItem : α → String) (task_list : List α)
    (limit_bytes : Nat) : List α :=
  truncate_go dumpItem limit_bytes [] task_list

/-! ## The OAuth flow: shared object state and collaborators -/

/-- Events observable on the effectful collaborators of
`TrmnlTodoistHookup` during one authorization attempt. -/
inductive Ev where
  | openBrowser                          -- `webbrowser.open(url)` (line 160)
  | startListener                        -- server bound to port 8080 and serving (lines 133-137)
  | timeoutMsg                           -- the timeout diagnostic print (line 178)
  | stateMismatchMsg                     -- the CSRF diagnostic print (line 195)
  | exchangeCall (code : Option String)  -- `get_auth_token(...)` (lines 202-206)
  | saveToken (tok : String)             -- `save_access_token()` writes the file (lines 380-385)
  deriving DecidableEq

/-- The mutable fields of `TrmnlTodoistHookup` (lines 60-64) together with
the two resources it owns: the token file `access_token.json`
(`stored_access_token`) and the local HTTP server.  `httpd = none` models
the `httpd` attribute being unset, `some true` a bound, serving server,
`some false` a shut-down, closed one (the attribute stays set after
`server_close`). -/
structure CoordState where
  todoist_response_auth_code : Option String
  todoist_response_state : Option String
  todoist_oauth_callback_received : Bool
  todoist_api_token : Option String
  stored_access_token : Option String
  httpd : Option Bool
  deriving DecidableEq

/-- `shutdown_local_server` (lines 141-148): if the `httpd` attribute is
set, stop and close the server (any exception is swallowed, so repeated
calls are harmless); otherwise do nothing. -/
def shutdown_local_server (s : CoordState) : CoordState :=
  match s.httpd with
  | none => s
  | some _ => { s with httpd := some false }

/-- `reset_auth` (lines 76-81): clear the per-attempt fields, drop the
in-memory token, and shut the server down. -/
def reset_auth (s : CoordState) : CoordState :=
  shutdown_local_server
    { s with todoist_response_auth_code := none,
             todoist_response_state := none,
             todoist_api_token := none,
             todoist_oauth_callback_received := false }

/-- Python `str(...)` applied to an optional string: `str(None)` is the
text `"None"`. -/
def pyStr : Option String → String
  | none => "None"
  | some s => s

/-- Environment of one `authenticate` call: what the collaborators do.
`callback` is the content of the shared fields at the moment the wait loop
(lines 176-181) exits: `some (code, st)` if the listener delivered a
callback before the timeout, `none` if the timeout elapsed first.
`interrupted` models a `KeyboardInterrupt` arriving during the wait
(line 186).  `exchange` is `get_auth_token` (lines 202-206):
`Except.error e` models the call raising exception `e`, `Except.ok tok` a
success response carrying `access_token = tok`. -/
structure AuthEnv where
  callback : Option (String × String)
  interrupted : Bool
  exchange : Option String → Except String String

/-- Result of one `authenticate` call: `result` is the value produced
(`Except.ok b` models `return b`, `Except.error e` an exception `e`
escaping `authenticate` uncaught), `final` the object state afterwards,
`events` the collaborator trace. -/
structure AuthOutcome where
  result : Except String Bool
  final : CoordState
  events : List Ev

/-- Lines 193-211 of `authenticate`: the state comparison, the
code-for-token exchange, and the persist step.  `gen` is `str(state)` for
the generated uuid, `evs` the trace accumulated so far. -/
def validate_and_exchange (gen : String) (env : AuthEnv) (s : CoordState)
    (evs : List Ev) : AuthOutcome :=
  if gen ≠ pyStr s.todoist_response_state then
    -- lines 193-199: mismatch diagnostic, reset, shut down, `return False`
    { result := Except.ok false,
      final := shutdown_local_server (reset_auth s),
      events := evs ++ [Ev.stateMismatchMsg] }
  else
    match env.exchange s.todoist_response_auth_code with
    | Except.error e =>
      -- an exception from `get_auth_token` propagates out of `authenticate`
      { result := Except.error e,
        final := s,
        events := evs ++ [Ev.exchangeCall s.todoist_response_auth_code] }
    | Except.ok tok =>
      -- lines 208-211: record the token, save it, `return True`
      { result := Except.ok true,
        final := { s with todoist_api_token := some tok,
                          stored_access_token := some tok },
        events := evs ++ [Ev.exchangeCall s.todoist_response_auth_code,
                          Ev.saveToken tok] }

/-- `authenticate` (lines 150-211), for an attempt whose port bind
succeeds (the bind-failure path is modelled separately by
`authenticate_with_bind`).  `gen` is the generated `state` uuid rendered
as text (line 151; a `uuid4` rendering is never the text `"None"`).  The
browser is opened (line 160), the server thread runs `start_local_server`
(lines 103-139: `reset_auth`, bind, serve), the wait loop (lines 176-181)
ends with the shared fields as described by `env.callback`, then
`shutdown_local_server` (line 183) runs and lines 193-211 finish the
flow. -/
def authenticate (gen : String) (env : AuthEnv) (s0 : CoordState) :
    AuthOutcome :=
  let s1 : CoordState := { reset_auth s0 with httpd := some true }
  let evs := [Ev.openBrowser, Ev.startListener]
  if env.interrupted then
    -- lines 186-191: `KeyboardInterrupt` caught: reset, shut down, `sys.exit(1)`
    { result := Except.error "SystemExit",
      final := shutdown_local_server (reset_auth s1),
      events := evs }
  else
    match env.callback with
    | none =>
      -- lines 177-180: timeout print, `reset_auth`, `break`; then line 183
      validate_and_exchange gen env (shutdown_local_server (reset_auth s1))
        (evs ++ [Ev.timeoutMsg])
    | some (c, st) =>
      -- lines 123-127 ran in the handler thread: fields set, flag raised
      let s2 : CoordState :=
        { s1 with todoist_response_auth_code := some c,
                  todoist_response_state := some st,
                  todoist_oauth_callback_received := true }
      validate_and_exchange gen env (shutdown_local_server s2) evs

/-! ## Construction-time fast path (`__init__` lines 49-73, `main` lines 396-407) -/

/-- Python truthiness of the `todoist_api_token` attribute (an optional
string): `None` and the empty string are both falsy, so
`not self.todoist_api_token` holds exactly when this is `false`. -/
def pyTruthy : Option String → Bool
  | none => false
  | some s => s != ""

/-- `TrmnlTodoistHookup.__init__` (lines 49-73): the fields are
initialised, the token is loaded from `access_token.json`
(`load_access_token`, lines 387-394; `stored` is its parsed content),
then, if `configure()` succeeded and the loaded token is falsy
(line 72: `if not self.todoist_api_token:` — `None` or the empty
string), `authenticate()` runs. -/
def initFlow (stored : Option String) (cfgOk : Bool) (gen : String)
    (env : AuthEnv) : CoordState × List Ev :=
  let s : CoordState :=
    { todoist_response_auth_code := none,
      todoist_response_state := none,
      todoist_oauth_callback_received := false,
      todoist_api_token := stored,
      stored_access_token := stored,
      httpd := none }
  if cfgOk then
    if !pyTruthy s.todoist_api_token then
      let o := authenticate gen env s
      (o.final, o.events)
    else (s, [])
  else (s, [])

/-- `main` (lines 396-407) up to the data fetch: construct the object,
then re-authenticate only when the held token is falsy (line 402:
`if not todoist_trmnl.todoist_api_token:` — `None` or the empty string),
otherwise just print the token already available. -/
def mainFlow (stored : Option String) (cfgOk : Bool) (g1 g2 : String)
    (e1 e2 : AuthEnv) : CoordState × List Ev :=
  let p := initFlow stored cfgOk g1 e1
  if !pyTruthy p.1.todoist_api_token then
    let o := authenticate g2 e2 p.1
    (o.final, p.2 ++ o.events)
  else p

/-! ## The bind-failure path (lines 133-139 and 164-171) -/

/-- Lines 133-134: the server binds `(empty host, 8080)` and only that
address; no other port is ever attempted. -/
def bind_port_attempts : List Nat := [8080]

/-- Lines 169-171 of `authenticate`: the loop waiting for the server
thread to set the `httpd` attribute.  `bindOk` says whether the bind on
line 134 succeeded; when it failed, the daemon thread died with the
`OSError` and the attribute is never set.  `fuel` counts loop polls; the
value is `true` when the loop has exited within `fuel` polls. -/
def wait_for_httpd (bindOk : Bool) : Nat → Bool
  | 0 => false
  | n + 1 => if bindOk then true else wait_for_httpd bindOk n

/-- `authenticate` including the wait for the server attribute: `none`
means the call is still blocked in the line-170 loop after `fuel` polls
and has returned nothing to its caller. -/
def authenticate_with_bind (bindOk : Bool) (fuel : Nat) (gen : String)
    (env : AuthEnv) (s0 : CoordState) : Option AuthOutcome :=
  if wait_for_httpd bindOk fuel then some (authenticate gen env s0)
  else none

/-! ## The request handler (`RequestHandler.do_GET`, lines 107-131) -/

/-- Python `text.split(sep)` for a one-character separator, over the
character list of the text. -/
def pySplitChar (sep : Char) : List Char → List (List Char)
  | [] => [[]]
  | c :: cs =>
    match pySplitChar sep cs with
    | [] => [[]]
    | h :: t => if c = sep then [] :: h :: t else (c :: h) :: t

/-- Python `chunk.split(eq, 1)`: split at the first `=` only; `none` when
the chunk holds no `=`. -/
def pySplitFirstEq : List Char → Option (List Char × List Char)
  | [] => none
  | c :: cs =>
    if c = '=' then some ([], cs)
    else (pySplitFirstEq cs).map (fun p => (c :: p.1, p.2))

/-- `urllib.parse.urlparse(url).query` for the request paths this handler
sees: the text after the first `?`, with any later `#`-fragment removed. -/
def urlQuery : List Char → List Char
  | [] => []
  | c :: cs => if c = '?' then cs.takeWhile (fun d => d != '#') else urlQuery cs

/-- `urllib.parse.parse_qs(query)` with its default arguments (blank
values dropped, chunks without `=` skipped), as an association list in
field order.  Percent- and plus-decoding are not modelled; the values in
this development are plain text. -/
def parse_qs (query : List Char) : List (List Char × List Char) :=
  (pySplitChar '&' query).foldr
    (fun chunk acc =>
      if chunk = [] then acc
      else
        match pySplitFirstEq chunk with
        | none => acc
        | some (k, v) => if v = [] then acc else (k, v) :: acc)
    []

/-- Lines 118-120: `parse_qs(query).get(key, [None])[0]` — the first
value listed for `key`, or `none` when the key is absent (a missing or
blank parameter both yield `none`). -/
def parse_qs_first (query : List Char) (key : List Char) :
    Option (List Char) :=
  (((parse_qs query).filter (fun kv => kv.1 == key)).head?).map
    (fun kv => kv.2)

/-- The success page written on line 113. -/
def okPage : String := "Authorization successful! You can close this window."

/-- The response of one handler invocation: the status and body written to
the socket, and `exn`, the exception (if any) escaping `do_GET` after the
response bytes were already written. -/
structure HandlerResponse where
  status : Nat
  body : Option String
  exn : Option String
  deriving DecidableEq

/-- `RequestHandler.do_GET` (lines 107-131) as a transition on the shared
object state.  For a path starting with `/callback` the 200 response and
the success page are written first (lines 110-114); then the query string
is parsed (lines 117-120) and the log print on line 121 evaluates the
slices `code[:5]` and `state[:5]`, which raises `TypeError` when either
value is `None`; only after that does the guard on line 123 store the
values and raise the received flag.  Any other path gets 404. -/
def do_GET (path : String) (s : CoordState) :
    HandlerResponse × CoordState :=
  if List.isPrefixOf "/callback".data path.data then
    let q := urlQuery path.data
    match parse_qs_first q "code".data, parse_qs_first q "state".data with
    | some c, some st =>
      -- line 121 printed successfully; line 123: `if code and state:`
      if c ≠ [] ∧ st ≠ [] then
        ({ status := 200, body := some okPage, exn := none },
         { s with todoist_response_auth_code := some (String.mk c),
                  todoist_response_state := some (String.mk st),
                  todoist_oauth_callback_received := true })
      else ({ status := 200, body := some okPage, exn := none }, s)
    | _, _ =>
      -- line 121 raises `TypeError`: a slice of `None`
      ({ status := 200, body := some okPage, exn := some "TypeError" }, s)
  else
    ({ status := 404, body := none, exn := none }, s)

/-! ## Concrete example data used by the closed instances below -/

/-- A fresh object state: nothing stored, no server bound. -/
def s00 : CoordState :=
  { todoist_response_auth_code := none,
    todoist_response_state := none,
    todoist_oauth_callback_received := false,
    todoist_api_token := none,
    stored_access_token := none,
    httpd := none }

/-- An attempt in which the callback carries a foreign state value. -/
def envC1 : AuthEnv :=
  { callback := some ("code1", "attacker"),
    interrupted := false,
    exchange := fun _ => Except.error "unused" }

/-- An attempt in which no callback arrives before the timeout. -/
def envTimeout : AuthEnv :=
  { callback := none,
    interrupted := false,
    exchange := fun _ => Except.error "unused" }

/-- An attempt with a matching callback and a succeeding exchange. -/
def envC3 : AuthEnv :=
  { callback := some ("code3", "gen-3"),
    interrupted := false,
    exchange := fun oc =>
      if oc = some "code3" then Except.ok "tok-3" else Except.error "bad" }

/-- An attempt with a matching callback whose exchange raises. -/
def envC5 : AuthEnv :=
  { callback := some ("code5", "gen-5"),
    interrupted := false,
    exchange := fun _ => Except.error "ConnectionError" }

/-! ## Lemmas about the serialized size -/

theorem pyLenUtf8_append (a b : String) :
    pyLenUtf8 (a ++ b) = pyLenUtf8 a + pyLenUtf8 b := by
  simp [pyLenUtf8, String.data_append]

theorem pyJsonListBody_concat (d : α → String) (l : List α) (x : α)
    (h : l ≠ []) :
    pyJsonListBody d (l ++ [x]) = pyJsonListBody d l ++ ", " ++ d x := by
  induction l with
  | nil => exact absurd rfl h
  | cons a t ih =>
    cases t with
    | nil => rfl
    | cons b t2 =>
      have : pyJsonListBody d ((a :: b :: t2) ++ [x])
          = d a ++ ", " ++ pyJsonListBody d ((b :: t2) ++ [x]) := rfl
      rw [this, ih (by simp)]
      simp [pyJsonListBody, String.append_assoc]

theorem serializedSize_eq_body (d : α → String) (l : List α) :
    serializedSize d l = 2 + pyLenUtf8 (pyJsonListBody d l) := by
  unfold serializedSize pyJsonDumps
  rw [pyLenUtf8_append, pyLenUtf8_append]
  have h1 : pyLenUtf8 "[" = 1 := rfl
  have h2 : pyLenUtf8 "]" = 1 := rfl
  omega

theorem pyLenUtf8_body_concat (d : α → String) (l : List α) (x : α) :
    pyLenUtf8 (pyJsonListBody d (l ++ [x]))
      = pyLenUtf8 (pyJsonListBody d l)
        + (if l.isEmpty then 0 else 2) + pyLenUtf8 (d x) := by
  cases l with
  | nil =>
    simp [pyJsonListBody, List.isEmpty]
    rfl
  | cons a t =>
    rw [pyJsonListBody_concat d (a :: t) x (by simp)]
    rw [pyLenUtf8_append, pyLenUtf8_append]
    have hsep : pyLenUtf8 ", " = 2 := rfl
    simp [hsep, List.isEmpty]

theorem serializedSize_concat_le (d : α → String) (l : List α) (x : α) :
    serializedSize d l ≤ serializedSize d (l ++ [x]) := by
  rw [serializedSize_eq_body, serializedSize_eq_body, pyLenUtf8_body_concat]
  omega

theorem serializedSize_append_le (d : α → String) :
    ∀ (t l : List α), serializedSize d l ≤ serializedSize d (l ++ t)
  | [], l => by simp
  | a :: t, l => by
    have h1 := serializedSize_concat_le d l a
    have h2 := serializedSize_append_le d t (l ++ [a])
    calc serializedSize d l ≤ serializedSize d (l ++ [a]) := h1
      _ ≤ serializedSize d ((l ++ [a]) ++ t) := h2
      _ = serializedSize d (l ++ a :: t) := by rw [List.append_assoc]; rfl

theorem serializedSize_take_le (d : α → String) (l : List α) (m k : Nat)
    (h : m ≤ k) :
    serializedSize d (l.take m) ≤ serializedSize d (l.take k) := by
  have h1 : l.take m = (l.take k).take m := by
    rw [List.take_take, Nat.min_eq_left h]
  rw [h1]
  calc serializedSize d ((l.take k).take m)
      ≤ serializedSize d ((l.take k).take m ++ (l.take k).drop m) :=
        serializedSize_append_le d _ _
    _ = serializedSize d (l.take k) := by rw [List.take_append_drop]

/-! ## Lemmas about the truncation loop -/

theorem truncate_go_pref (d : α → String) (lim : Nat) :
    ∀ (l acc : List α), ∃ p, truncate_go d lim acc l = acc ++ p ∧ p <+: l
  | [], acc => ⟨[], by simp [truncate_go]⟩
  | item :: rest, acc => by
    unfold truncate_go
    by_cases h : lim < serializedSize d (acc ++ [item])
    · refine ⟨[], ?_, List.nil_prefix⟩
      simp only [h, if_true]
      rw [List.dropLast_concat, List.append_nil]
    · obtain ⟨p, hp, hpre⟩ := truncate_go_pref d lim rest (acc ++ [item])
      refine ⟨item :: p, ?_, ?_⟩
      · simp only [h, if_false]
        rw [hp, List.append_assoc]
        rfl
      · obtain ⟨t, ht⟩ := hpre
        exact ⟨t, by rw [List.cons_append, ht]⟩

theorem truncate_go_size (d : α → String) (lim : Nat) :
    ∀ (l acc : List α), (acc ≠ [] → serializedSize d acc ≤ lim) →
      truncate_go d lim acc l ≠ [] →
      serializedSize d (truncate_go d lim acc l) ≤ lim
  | [], acc => fun hacc hne => by
    simpa [truncate_go] using hacc (by simpa [truncate_go] using hne)
  | item :: rest, acc => fun hacc hne => by
    unfold truncate_go at hne ⊢
    by_cases h : lim < serializedSize d (acc ++ [item])
    · simp only [h, if_true] at hne ⊢
      rw [List.dropLast_concat] at hne ⊢
      exact hacc hne
    · simp only [h, if_false] at hne ⊢
      exact truncate_go_size d lim rest (acc ++ [item])
        (fun _ => Nat.le_of_not_lt h) hne

theorem truncate_go_longest (d : α → String) (lim : Nat) :
    ∀ (l acc : List α) (k : Nat), k ≤ (acc ++ l).length →
      serializedSize d ((acc ++ l).take k) ≤ lim →
      k ≤ (truncate_go d lim acc l).length
  | [], acc, k => fun hk _ => by
    simpa [truncate_go] using hk
  | item :: rest, acc, k => fun hk hsz => by
    unfold truncate_go
    by_cases h : lim < serializedSize d (acc ++ [item])
    · simp only [h, if_true]
      rw [List.dropLast_concat]
      by_contra hgt
      push_neg at hgt
      have hk1 : acc.length + 1 ≤ k := hgt
      have hfull : acc ++ item :: rest = (acc ++ [item]) ++ rest := by
        rw [List.append_assoc]; rfl
      have htake : ((acc ++ item :: rest).take (acc.length + 1))
          = acc ++ [item] := by
        rw [hfull]
        have : (acc ++ [item]).length = acc.length + 1 := by simp
        rw [← this, List.take_left]
      have hmono := serializedSize_take_le d (acc ++ item :: rest)
        (acc.length + 1) k hk1
      rw [htake] at hmono
      have := Nat.le_trans hmono hsz
      omega
    · simp only [h, if_false]
      have hfull : acc ++ item :: rest = (acc ++ [item]) ++ rest := by
        rw [List.append_assoc]; rfl
      refine truncate_go_longest d lim rest (acc ++ [item]) k ?_ ?_
      · rw [← hfull]; exact hk
      · rw [← hfull]; exact hsz

/-! ## Claims -/

/-- C10: `truncate_data_to_limit` returns a prefix of its input; whenever
the returned prefix is non-empty, its UTF-8 JSON serialization is at most
`limit_bytes`; and it is the longest such prefix — any prefix length `k`
whose serialization fits within the limit satisfies
`k ≤` the returned length (items are appended in order; the first item
pushing the serialized size over the limit is removed and the loop
stops). -/
theorem C10_truncate_longest_fitting_prefix (d : α → String)
    (task_list : List α) (limit_bytes : Nat) :
    truncate_data_to_limit d task_list limit_bytes <+: task_list ∧
    (truncate_data_to_limit d task_list limit_bytes ≠ [] →
      serializedSize d (truncate_data_to_limit d task_list limit_bytes)
        ≤ limit_bytes) ∧
    (∀ k, k ≤ task_list.length →
      serializedSize d (task_list.take k) ≤ limit_bytes →
      k ≤ (truncate_data_to_limit d task_list limit_bytes).length) := by
  refine ⟨?_, ?_, ?_⟩
  · obtain ⟨p, hp, hpre⟩ := truncate_go_pref d limit_bytes task_list []
    unfold truncate_data_to_limit
    rw [hp]
    simpa using hpre
  · exact truncate_go_size d limit_bytes task_list []
      (fun hne => absurd rfl hne)
  · intro k hk hsz
    exact truncate_go_longest d limit_bytes task_list [] k
      (by simpa using hk) (by simpa using hsz)

/-- Witness for C10 at a concrete input: three items of serialized length
4 each and a 12-byte budget keep exactly the first two. -/
theorem C10_truncate_witness :
    truncate_data_to_limit (fun s => "\"" ++ s ++ "\"") ["ab", "cd", "ef"] 12
      <+: ["ab", "cd", "ef"] ∧
    serializedSize (fun s => "\"" ++ s ++ "\"")
      (truncate_data_to_limit (fun s => "\"" ++ s ++ "\"")
        ["ab", "cd", "ef"] 12) ≤ 12 ∧
    2 ≤ (truncate_data_to_limit (fun s => "\"" ++ s ++ "\"")
      ["ab", "cd", "ef"] 12).length := by
  obtain ⟨h1, h2, h3⟩ := C10_truncate_longest_fitting_prefix
    (fun s => "\"" ++ s ++ "\"") ["ab", "cd", "ef"] 12
  exact ⟨h1, h2 (by decide), h3 2 (by decide) (by decide)⟩

/-- C1: whenever the callback delivered a state value different from the
generated one, `authenticate` prints the state-mismatch diagnostic and
returns `False`, the pending authorization is discarded (response fields
cleared, received flag down), the listener is closed, and the
token-exchange endpoint is never called (zero exchange events in the
trace). -/
theorem C1_state_mismatch_no_exchange (gen : String) (env : AuthEnv)
    (s0 : CoordState) (c st : String) (hi : env.interrupted = false)
    (hc : env.callback = some (c, st)) (hne : st ≠ gen) :
    (authenticate gen env s0).result = Except.ok false ∧
    Ev.stateMismatchMsg ∈ (authenticate gen env s0).events ∧
    (∀ oc, Ev.exchangeCall oc ∉ (authenticate gen env s0).events) ∧
    (authenticate gen env s0).final.todoist_response_auth_code = none ∧
    (authenticate gen env s0).final.todoist_response_state = none ∧
    (authenticate gen env s0).final.todoist_oauth_callback_received = false ∧
    (authenticate gen env s0).final.httpd = some false := by
  have hgs : gen ≠ st := fun h => hne h.symm
  simp [authenticate, hi, hc, validate_and_exchange, pyStr, reset_auth,
        shutdown_local_server, hgs]

/-- Closed instance of C1: a callback bearing the state `"attacker"`
against the generated state `"gen-1"`. -/
theorem C1_witness :
    (authenticate "gen-1" envC1 s00).result = Except.ok false ∧
    Ev.stateMismatchMsg ∈ (authenticate "gen-1" envC1 s00).events ∧
    (∀ oc, Ev.exchangeCall oc ∉ (authenticate "gen-1" envC1 s00).events) ∧
    (authenticate "gen-1" envC1 s00).final.todoist_response_auth_code = none ∧
    (authenticate "gen-1" envC1 s00).final.todoist_response_state = none ∧
    (authenticate "gen-1" envC1 s00).final.todoist_oauth_callback_received
      = false ∧
    (authenticate "gen-1" envC1 s00).final.httpd = some false :=
  C1_state_mismatch_no_exchange "gen-1" envC1 s00 "code1" "attacker"
    rfl rfl (by decide)

/-- C2 is refuted as stated: in the timeout run the failure `authenticate`
returns is not a distinct timeout error — the run also executes the
state-mismatch branch and prints its CSRF diagnostic, and the value
returned is the same bare `False` that every failure path returns. -/
theorem C2_timeout_counterexample :
    Ev.stateMismatchMsg ∈ (authenticate "gen-2" envTimeout s00).events ∧
    (authenticate "gen-2" envTimeout s00).result = Except.ok false := by
  refine ⟨by decide, rfl⟩

/-- C2 (amended): with no callback before the timeout, `authenticate`
prints the timeout diagnostic, stops the listener, discards the pending
authorization and returns failure without ever calling the exchange — but
the return value is the untyped `False` shared by every failure, and the
run falls through into the state comparison, which also prints the
state-mismatch diagnostic, because the generated uuid text never equals
`str(None)`. -/
theorem C2_timeout_falls_through (gen : String) (env : AuthEnv)
    (s0 : CoordState) (hi : env.interrupted = false)
    (hc : env.callback = none) (hg : gen ≠ "None") :
    (authenticate gen env s0).result = Except.ok false ∧
    Ev.timeoutMsg ∈ (authenticate gen env s0).events ∧
    Ev.stateMismatchMsg ∈ (authenticate gen env s0).events ∧
    (∀ oc, Ev.exchangeCall oc ∉ (authenticate gen env s0).events) ∧
    (authenticate gen env s0).final.todoist_oauth_callback_received = false ∧
    (authenticate gen env s0).final.todoist_response_auth_code = none ∧
    (authenticate gen env s0).final.httpd = some false ∧
    (authenticate gen env s0).final.stored_access_token
      = s0.stored_access_token := by
  simp [authenticate, hi, hc, validate_and_exchange, pyStr, reset_auth,
        shutdown_local_server, hg]
  cases hh : s0.httpd <;> rfl

/-- Closed instance of the amended C2 at the generated state `"gen-9"`. -/
theorem C2_witness :
    (authenticate "gen-9" envTimeout s00).result = Except.ok false ∧
    Ev.timeoutMsg ∈ (authenticate "gen-9" envTimeout s00).events ∧
    Ev.stateMismatchMsg ∈ (authenticate "gen-9" envTimeout s00).events ∧
    (∀ oc, Ev.exchangeCall oc ∉ (authenticate "gen-9" envTimeout s00).events) ∧
    (authenticate "gen-9" envTimeout s00).final.todoist_oauth_callback_received
      = false ∧
    (authenticate "gen-9" envTimeout s00).final.todoist_response_auth_code
      = none ∧
    (authenticate "gen-9" envTimeout s00).final.httpd = some false ∧
    (authenticate "gen-9" envTimeout s00).final.stored_access_token
      = s00.stored_access_token :=
  C2_timeout_falls_through "gen-9" envTimeout s00 rfl rfl (by decide)

/-- C3: the token file is written only after the state comparison passed
and the exchange succeeded.  Whenever the stored token after
`authenticate` differs from the one before, the callback arrived bearing
exactly the generated state, the exchange returned a token, that token is
what is now stored, and the call returned `True`; contrapositively, the
timeout, state-mismatch, exchange-failure and interruption outcomes all
leave the previously stored token unchanged. -/
theorem C3_stored_token_only_after_success (gen : String) (env : AuthEnv)
    (s0 : CoordState) (hg : gen ≠ "None")
    (hch : (authenticate gen env s0).final.stored_access_token
      ≠ s0.stored_access_token) :
    ∃ c tok, env.callback = some (c, gen) ∧ env.interrupted = false ∧
      env.exchange (some c) = Except.ok tok ∧
      (authenticate gen env s0).result = Except.ok true ∧
      (authenticate gen env s0).final.stored_access_token = some tok := by
  by_cases hi : env.interrupted
  · exfalso
    apply hch
    simp [authenticate, hi, reset_auth, shutdown_local_server]
    cases hh : s0.httpd <;> rfl
  · rcases hcb : env.callback with _ | ⟨c, st⟩
    · exfalso
      apply hch
      simp [authenticate, hi, hcb, validate_and_exchange, pyStr,
            reset_auth, shutdown_local_server, hg]
      cases hh : s0.httpd <;> rfl
    · by_cases hst : gen = st
      · rcases hx : env.exchange (some c) with e | tok
        · exfalso
          apply hch
          simp [authenticate, hi, hcb, validate_and_exchange, pyStr,
                reset_auth, shutdown_local_server, hst, hx]
          cases hh : s0.httpd <;> rfl
        · refine ⟨c, tok, ?_, by simp [hi], hx, ?_, ?_⟩
          · -- the callback pair carries exactly the generated state
            rw [hst]
          · simp [authenticate, hi, hcb, validate_and_exchange, pyStr,
                  reset_auth, shutdown_local_server, hst, hx]
          · simp [authenticate, hi, hcb, validate_and_exchange, pyStr,
                  reset_auth, shutdown_local_server, hst, hx]
      · exfalso
        apply hch
        simp [authenticate, hi, hcb, validate_and_exchange, pyStr,
              reset_auth, shutdown_local_server, hst]
        cases hh : s0.httpd <;> rfl

/-- Closed instance of C3: a matching callback and a succeeding exchange
actually change the stored token, through the theorem. -/
theorem C3_witness :
    ∃ c tok, envC3.callback = some (c, "gen-3") ∧
      envC3.interrupted = false ∧
      envC3.exchange (some c) = Except.ok tok ∧
      (authenticate "gen-3" envC3 s00).result = Except.ok true ∧
      (authenticate "gen-3" envC3 s00).final.stored_access_token
        = some tok :=
  C3_stored_token_only_after_success "gen-3" envC3 s00 (by decide)
    (by decide)

/-- C5 is refuted as stated: when the exchange fails, `authenticate` does
not return an `ExchangeFailed` (nor any) error value — the exception
escapes it uncaught, so no normal return happens at all; the half of the
claim that no token is stored does hold. -/
theorem C5_exchange_failure_counterexample :
    (authenticate "gen-5" envC5 s00).result = Except.error "ConnectionError" ∧
    (authenticate "gen-5" envC5 s00).result ≠ Except.ok false ∧
    (authenticate "gen-5" envC5 s00).result ≠ Except.ok true ∧
    (authenticate "gen-5" envC5 s00).final.stored_access_token
      = s00.stored_access_token := by
  refine ⟨rfl, ?_, ?_, rfl⟩
  · intro h
    rw [show (authenticate "gen-5" envC5 s00).result
          = Except.error "ConnectionError" from rfl] at h
    exact Except.noConfusion h
  · intro h
    rw [show (authenticate "gen-5" envC5 s00).result
          = Except.error "ConnectionError" from rfl] at h
    exact Except.noConfusion h

/-- C5 (amended): if the state comparison passes and the exchange raises,
the exception propagates uncaught out of `authenticate` (no typed error
value is returned), no save of the token file happens, and the previously
stored token is unchanged. -/
theorem C5_exchange_failure_propagates (gen : String) (env : AuthEnv)
    (s0 : CoordState) (c e : String) (hi : env.interrupted = false)
    (hc : env.callback = some (c, gen))
    (hx : env.exchange (some c) = Except.error e) :
    (authenticate gen env s0).result = Except.error e ∧
    (authenticate gen env s0).final.stored_access_token
      = s0.stored_access_token ∧
    (∀ tok, Ev.saveToken tok ∉ (authenticate gen env s0).events) := by
  simp [authenticate, hi, hc, validate_and_exchange, pyStr, reset_auth,
        shutdown_local_server, hx]
  cases hh : s0.httpd <;> rfl

/-- Closed instance of the amended C5: a raising exchange propagates. -/
theorem C5_witness :
    (authenticate "gen-5" envC5 s00).result
      = Except.error "ConnectionError" ∧
    (authenticate "gen-5" envC5 s00).final.stored_access_token
      = s00.stored_access_token ∧
    (∀ tok, Ev.saveToken tok ∉ (authenticate "gen-5" envC5 s00).events) :=
  C5_exchange_failure_propagates "gen-5" envC5 s00 "code5"
    "ConnectionError" rfl rfl rfl

/-- C7: when the token store already holds a token — a non-empty one,
since Python's `if not self.todoist_api_token:` on lines 72 and 402
treats the empty string like `None` — the constructed flow returns it at
once and the collaborator trace is empty: the browser-open step is never
invoked, no listener is started, and no network activity happens. -/
theorem C7_cached_token_fast_path (t : String) (cfg : Bool)
    (g1 g2 : String) (e1 e2 : AuthEnv) (ht : t ≠ "") :
    (mainFlow (some t) cfg g1 g2 e1 e2).1.todoist_api_token = some t ∧
    (mainFlow (some t) cfg g1 g2 e1 e2).2 = [] := by
  cases cfg <;> simp [mainFlow, initFlow, pyTruthy, ht]

/-- Closed instance of C7: the stored token `"tok-7"` is returned with an
empty collaborator trace. -/
theorem C7_witness :
    (mainFlow (some "tok-7") true "g1" "g2" envTimeout envC1).1.todoist_api_token
      = some "tok-7" ∧
    (mainFlow (some "tok-7") true "g1" "g2" envTimeout envC1).2 = [] :=
  C7_cached_token_fast_path "tok-7" true "g1" "g2" envTimeout envC1
    (by decide)

/-- C8 is refuted as stated: with the port already in use the bind raises
inside the daemon server thread, the `httpd` attribute is never set, and
after 100 polls of the line-170 loop `authenticate` has still returned
nothing to its caller — no `ListenerBindFailed` (nor any) error is
surfaced. -/
theorem C8_bind_failure_counterexample :
    authenticate_with_bind false 100 "gen-8" envTimeout s00 = none := rfl

/-- C8 (amended): the callback server binds only the fixed port 8080 (no
alternative port is ever tried), and when that bind fails `authenticate`
never returns: for every number of polls the call is still blocked
waiting for the server attribute, so no error of any kind reaches the
caller. -/
theorem C8_bind_failure_hangs (fuel : Nat) (gen : String) (env : AuthEnv)
    (s0 : CoordState) :
    authenticate_with_bind false fuel gen env s0 = none ∧
    bind_port_attempts = [8080] := by
  refine ⟨?_, rfl⟩
  induction fuel with
  | zero => rfl
  | succ n ih => simpa [authenticate_with_bind, wait_for_httpd] using ih

/-- C9: on every exit path of `authenticate` — timeout, success, state
mismatch, exchange failure, interruption — the listening socket ends
closed (`httpd = some false`), so a subsequent attempt can rebind the
port, and `shutdown_local_server` is idempotent.  (That the shutdown may
be invoked from a thread other than the serving one is a property of the
Python runtime, outside a sequential model.) -/
theorem C9_listener_released (gen : String) (env : AuthEnv)
    (s0 s : CoordState) :
    (authenticate gen env s0).final.httpd = some false ∧
    shutdown_local_server (shutdown_local_server s)
      = shutdown_local_server s := by
  constructor
  · by_cases hi : env.interrupted
    · simp [authenticate, hi, reset_auth, shutdown_local_server]
    · rcases hcb : env.callback with _ | ⟨c, st⟩
      · unfold authenticate validate_and_exchange
        simp only [hi, hcb, Bool.false_eq_true, if_false]
        split
        · simp [reset_auth, shutdown_local_server]
        · split <;> simp [reset_auth, shutdown_local_server]
      · unfold authenticate validate_and_exchange
        simp only [hi, hcb, Bool.false_eq_true, if_false]
        split
        · simp [reset_auth, shutdown_local_server]
        · split <;> simp [reset_auth, shutdown_local_server]
  · cases h : s.httpd <;> simp [shutdown_local_server, h]

/-- C4 (the code contradicts the intended behaviour): on
`GET /callback?state=abcdef` — the `code` parameter missing — the 200
response and the success page are written and no callback result is
delivered (the shared fields are untouched and the received flag stays
down, so the wait loop cannot terminate and the flow times out), but the
handler then raises `TypeError` at the logging line 121 (`code[:5]` with
`code = None`) instead of reaching the `if code and state:` guard on
line 123 that was meant to treat the request as noise. -/
theorem C4_missing_param_raises_in_handler :
    (do_GET "/callback?state=abcdef" s00).1 =
      { status := 200,
        body := some okPage,
        exn := some "TypeError" } ∧
    (do_GET "/callback?state=abcdef" s00).2 = s00 ∧
    (do_GET "/callback?state=abcdef" s00).2.todoist_oauth_callback_received
      = false := by
  refine ⟨by decide, by decide, by decide⟩

/-- C6 is refuted as stated: after a first valid callback request has been
served and delivered (received flag raised), a second valid request is
still served with 200 and overwrites the stored code and state — the
handler did not stop the listener and the first redirect does not win. -/
theorem C6_second_request_overwrites :
    (do_GET "/callback?code=aaa111&state=sss111" s00).2.todoist_oauth_callback_received
      = true ∧
    (do_GET "/callback?code=bbb222&state=ttt222"
      (do_GET "/callback?code=aaa111&state=sss111" s00).2).1.status = 200 ∧
    (do_GET "/callback?code=bbb222&state=ttt222"
      (do_GET "/callback?code=aaa111&state=sss111" s00).2).2.todoist_response_auth_code
      = some "bbb222" ∧
    (do_GET "/callback?code=bbb222&state=ttt222"
      (do_GET "/callback?code=aaa111&state=sss111" s00).2).2.todoist_response_state
      = some "ttt222" := by
  refine ⟨by decide, by decide, by decide, by decide⟩

/-- C6 (amended): the handler itself never stops or closes the listener
(`httpd` is untouched), it serves every request identically regardless of
the fields already stored — in particular regardless of whether a callback
was already received — and each request either leaves the shared fields
unchanged or overwrites code and state wholesale while raising the
received flag.  Consequently the last valid request served before the
coordinator's polling loop shuts the server down determines the code and
state used for the exchange, not the first. -/
theorem C6_handler_never_stops_listener (path : String) (s : CoordState)
    (x y : Option String) (b : Bool) :
    (do_GET path s).2.httpd = s.httpd ∧
    (do_GET path s).1 =
      (do_GET path { s with todoist_response_auth_code := x,
                            todoist_response_state := y,
                            todoist_oauth_callback_received := b }).1 ∧
    ((do_GET path s).2 = s ∨
      ∃ c st, (do_GET path s).2 =
        { s with todoist_response_auth_code := some c,
                 todoist_response_state := some st,
                 todoist_oauth_callback_received := true }) := by
  unfold do_GET
  by_cases hp : List.isPrefixOf "/callback".data path.data
  · simp only [hp, if_true]
    rcases h1 : parse_qs_first (urlQuery path.data) "code".data with _ | c
    · simp [h1]
    · rcases h2 : parse_qs_first (urlQuery path.data) "state".data with _ | st
      · simp [h1, h2]
      · by_cases hv : c ≠ [] ∧ st ≠ []
        · simp only [h1, h2, if_pos hv]
          refine ⟨trivial, trivial, Or.inr ⟨String.mk c, String.mk st, ?_⟩⟩
          rfl
        · simp [h1, h2, hv]
  · simp [hp]

end Todoist
